import Mathlib

/-!
Shallow embedding of the from-scratch `KNN` regressor defined in
`src/knn_workshop.ipynb` (the class `KNN` of cell 9), together with proofs
of its behavioural properties.

The source class is:

```python
class KNN(object):
    def fit(self, X_train, y_train):
        self.X_train = X_train
        self.y_train = y_train

    def predict(self, X_test, k=3):
        predictions = np.zeros(X_test.shape[0])
        for i, point in enumerate(X_test):
            distances = self._get_distances(point)
            k_nearest = self._get_k_nearest(distances, k)
            prediction = self._get_predicted_value(k_nearest)
            predictions[i] = prediction
        return predictions

    def _get_distances(self, x):
        distances = np.zeros(self.X_train.shape[0])
        for i, point in enumerate(self.X_train):
            distances[i] = euc(x, point)
        return distances

    def _get_k_nearest(self, distances, k):
        nearest = np.argsort(distances)[:k]
        return nearest

    def _get_predicted_value(self, k_nearest):
        return np.mean(self.y_train[k_nearest])
```

Modelling decisions, all forced by the source:

* Feature vectors and targets are modelled over `ℚ` (exact arithmetic in
  place of IEEE doubles, the usual idealisation).
* `scipy.spatial.distance.euclidean` returns `sqrt` of the sum of squared
  differences.  The square root is irrational, but the distances are used
  by the class only as sort keys for `np.argsort`, and `sqrt` is strictly
  monotone on nonnegative numbers, so ordering (and hence every selected
  index set) is unchanged if we work with the squared distance `distSq`,
  which stays inside `ℚ`.
* `np.argsort` is modelled as a sort of the index list `range n` by the
  value at each index.  We realise it with Mathlib's `List.insertionSort`.
  Every theorem below that depends on `argsort` uses only the facts that
  its output is a permutation of `range n` sorted by the keys, which hold
  for any correct implementation of `np.argsort` regardless of how it
  orders tied keys.  (The source calls `np.argsort` with the default
  `kind`, quicksort, whose ordering of tied keys is not specified; no
  theorem below depends on the tie order.)
* `np.mean` of a vector is its sum divided by its length.  (`np.mean` of
  an empty slice is NaN; the empty case is reached only for `k = 0`,
  where `mean` below returns the junk value `0 / 0 = 0` — no theorem
  evaluates `mean` on an empty selection.)
* The class performs no validation anywhere: `fit` stores its two
  arguments unconditionally and `predict` slices `np.argsort`'s output,
  so both are total functions, exactly as in the source.
* A `KNN` instance before `fit` has no `X_train`/`y_train` attributes;
  accessing them raises `AttributeError`.  The attribute state of an
  instance is therefore modelled as `Option KNN`: `none` before `fit`,
  `some` of the stored arrays after.  Crucially, the attributes are
  accessed only inside `predict`'s per-query loop body, so a call with
  an empty query batch runs zero iterations and returns the empty
  predictions array even on an unfitted instance; `predictOpt` mirrors
  this by recursing over the queries and consulting the attribute state
  once per query.
-/

namespace KNNWorkshop

/-- Squared Euclidean distance between two vectors: the sum of squared
per-dimension differences.  Models `euc(x, point)` up to the strictly
monotone square root (see the header: distances are only used as
`np.argsort` keys, so the ordering is identical). -/
def distSq (a b : List ℚ) : ℚ :=
  (List.zipWith (fun u v => (u - v) ^ 2) a b).sum

/-- Arithmetic mean of a list, `np.mean`: sum divided by length. -/
def mean (l : List ℚ) : ℚ :=
  l.sum / l.length

/-- The comparison relation `np.argsort` sorts indices by: index `i`
precedes index `j` when the value stored at `i` is at most the value at
`j`. -/
def argKey (d : List ℚ) (i j : ℕ) : Prop :=
  d.getD i 0 ≤ d.getD j 0

instance (d : List ℚ) : DecidableRel (argKey d) := fun i j =>
  inferInstanceAs (Decidable (d.getD i 0 ≤ d.getD j 0))

/-- Model of `np.argsort distances`: the list of indices `0, …, n-1`
sorted in ascending order of the value they point at. -/
def argsort (d : List ℚ) : List ℕ :=
  List.insertionSort (argKey d) (List.range d.length)

/-- The attribute state of a fitted `KNN` instance: the two arrays stored
by `fit`. -/
structure KNN where
  X_train : List (List ℚ)
  y_train : List ℚ

/-- `KNN.fit`: stores the two arguments as attributes, verbatim.  The
source performs no validation and no computation here. -/
def KNN.fit (X_train : List (List ℚ)) (y_train : List ℚ) : KNN :=
  ⟨X_train, y_train⟩

/-- `KNN._get_distances`: the array of distances from the query `x` to
every stored training point (squared, see `distSq`). -/
def KNN.getDistances (m : KNN) (x : List ℚ) : List ℚ :=
  m.X_train.map (fun point => distSq x point)

/-- `KNN._get_k_nearest`: `np.argsort(distances)[:k]`.  Like the Python
slice, `List.take` silently truncates when `k` exceeds the length and
yields `[]` when `k = 0`. -/
def getKNearest (distances : List ℚ) (k : ℕ) : List ℕ :=
  (argsort distances).take k

/-- `KNN._get_predicted_value`: `np.mean(self.y_train[k_nearest])`, the
mean of the targets at the selected indices. -/
def KNN.getPredictedValue (m : KNN) (kNearest : List ℕ) : ℚ :=
  mean (kNearest.map (fun i => m.y_train.getD i 0))

/-- `KNN.predict`: one prediction per query, each computed independently
through `_get_distances`, `_get_k_nearest` and `_get_predicted_value`. -/
def KNN.predict (m : KNN) (X_test : List (List ℚ)) (k : ℕ) : List ℚ :=
  X_test.map (fun point =>
    m.getPredictedValue (getKNearest (m.getDistances point) k))

/-- `predict` on the attribute state of an instance, mirroring the loop
of the source: the stored attributes are looked up (`self.X_train`
inside `_get_distances`, `self.y_train` inside `_get_predicted_value`)
once per query, inside the loop body.  With an empty query batch the
loop body never runs, so even an unfitted instance (`none`) returns the
empty predictions array; with at least one query an unfitted instance
fails at the first lookup (`AttributeError`, the spec's `NotFitted`)
and no predictions are produced. -/
def KNN.predictOpt (m : Option KNN) (X_test : List (List ℚ)) (k : ℕ) :
    Option (List ℚ) :=
  match X_test with
  | [] => some []
  | point :: rest =>
    match m with
    | none => none
    | some s =>
      (KNN.predictOpt m rest k).map
        (fun ps =>
          s.getPredictedValue (getKNearest (s.getDistances point) k) :: ps)

/-- `predict` viewed as a state transformer, returning the attribute
state after the call next to the predictions: the source's `predict`
writes only to the local `predictions` array and never assigns to
`self`, so the state is returned unchanged. -/
def KNN.predictRun (m : KNN) (X_test : List (List ℚ)) (k : ℕ) :
    KNN × List ℚ :=
  (m, m.predict X_test k)

/-- The training features of the spec's end-to-end example. -/
def exX : List (List ℚ) := [[0, 0], [10, 0], [0, 10]]

/-- The training targets of the spec's end-to-end example. -/
def exY : List ℚ := [10, 20, 30]

/-! Basic facts about `argsort`. -/

theorem argsort_perm_range (d : List ℚ) :
    (argsort d).Perm (List.range d.length) :=
  List.perm_insertionSort (argKey d) (List.range d.length)

theorem length_argsort (d : List ℚ) : (argsort d).length = d.length := by
  rw [argsort, List.length_insertionSort, List.length_range]

theorem argsort_sorted (d : List ℚ) :
    List.Sorted (argKey d) (argsort d) := by
  haveI : IsTotal ℕ (argKey d) := ⟨fun i j => le_total _ _⟩
  haveI : IsTrans ℕ (argKey d) := ⟨fun _ _ _ h h' => le_trans h h'⟩
  exact List.sorted_insertionSort (argKey d) (List.range d.length)

/-- Reading back a list through `getD` at the indices `range n`
reconstructs the list. -/
theorem map_getD_range (l : List ℚ) :
    (List.range l.length).map (fun i => l.getD i 0) = l := by
  induction l with
  | nil => rfl
  | cons a t ih =>
    rw [List.length_cons, List.range_succ_eq_map, List.map_cons,
      List.map_map]
    simp only [Function.comp_def, List.getD_cons_zero, List.getD_cons_succ]
    rw [ih]

/-- The mean is invariant under permutation of the list. -/
theorem mean_perm {l₁ l₂ : List ℚ} (h : l₁.Perm l₂) : mean l₁ = mean l₂ := by
  rw [mean, mean, h.sum_eq, h.length_eq]

/-- When `k` is at least the number of points, the slice
`np.argsort(distances)[:k]` is the whole of `argsort`. -/
theorem getKNearest_of_le (d : List ℚ) (k : ℕ) (h : d.length ≤ k) :
    getKNearest d k = argsort d := by
  rw [getKNearest, List.take_of_length_le]
  rw [length_argsort]
  exact h

/-- Core lemma behind C1, C4 and C9: once `k` is at least `n_train`,
every query's prediction is the mean of all stored targets: the selected
indices are a permutation of `range n_train`, and reading the targets
back through that permutation permutes `y_train`. -/
theorem predict_mean_of_le (X : List (List ℚ)) (y : List ℚ)
    (qs : List (List ℚ)) (k : ℕ) (hy : y.length = X.length)
    (hk : X.length ≤ k) :
    (KNN.fit X y).predict qs k = qs.map (fun _ => mean y) := by
  have hpt : ∀ q : List ℚ,
      (KNN.fit X y).getPredictedValue
        (getKNearest ((KNN.fit X y).getDistances q) k) = mean y := by
    intro q
    have hd : ((KNN.fit X y).getDistances q).length = X.length := by
      rw [KNN.getDistances, List.length_map]; rfl
    rw [getKNearest_of_le _ _ (by rw [hd]; exact hk)]
    rw [KNN.getPredictedValue]
    have hperm :
        ((argsort ((KNN.fit X y).getDistances q)).map
            (fun i => ((KNN.fit X y).y_train).getD i 0)).Perm
          ((List.range y.length).map (fun i => y.getD i 0)) := by
      have h1 := (argsort_perm_range ((KNN.fit X y).getDistances q)).map
        (fun i => ((KNN.fit X y).y_train).getD i 0)
      rw [hd, ← hy] at h1
      exact h1
    rw [mean_perm hperm, map_getD_range]
  rw [KNN.predict]
  exact List.map_congr_left (fun q _ => hpt q)

/-- C1: for a fitted model with `n_train` training points, `predict`
with `k = n_train` returns, for every query, the arithmetic mean of all
training targets, independent of the query's value. -/
theorem c1_predict_all_neighbors_is_mean (X : List (List ℚ)) (y : List ℚ)
    (qs : List (List ℚ)) (hy : y.length = X.length) (h0 : 0 < X.length) :
    (KNN.fit X y).predict qs X.length = qs.map (fun _ => mean y) :=
  predict_mean_of_le X y qs X.length hy le_rfl

/-- Witness for C1: on the example training set
`{([0,0],10), ([10,0],20), ([0,10],30)}` and query `[1,0]`, `predict`
with `k = 3` returns `[20]`, the mean of the three targets. -/
theorem c1_witness :
    (KNN.fit exX exY).predict [[1, 0]] 3 = [20] := by
  have h := c1_predict_all_neighbors_is_mean exX exY [[1, 0]]
    (by decide) (by decide)
  have h3 : exX.length = 3 := by decide
  rw [h3] at h
  rw [h]
  norm_num [mean, exY]

/-- The mean of a one-element list is that element. -/
theorem mean_singleton (a : ℚ) : mean [a] = a := by
  simp [mean]

/-- Reading the distance array produced by `_get_distances` at a valid
index yields the (squared) distance from the query to that training
point. -/
theorem getDistances_getD (X : List (List ℚ)) (y : List ℚ) (q : List ℚ)
    (i : ℕ) (hi : i < X.length) :
    ((KNN.fit X y).getDistances q).getD i 0 = distSq q (X.getD i []) := by
  have h1 : i < (X.map (fun point => distSq q point)).length := by
    simpa using hi
  show (X.map (fun point => distSq q point)).getD i 0 = _
  rw [List.getD_eq_getElem _ _ h1, List.getElem_map,
    List.getD_eq_getElem _ _ hi]

/-- When index `j` holds the strictly smallest value of the distance
array, `np.argsort(distances)[:1]` is exactly `[j]`: the head of any
sorted permutation of the indices must carry a minimal key, and strict
minimality forces it to be `j`.  No tie-breaking is involved. -/
theorem getKNearest_one (d : List ℚ) (j : ℕ) (hj : j < d.length)
    (hmin : ∀ i, i < d.length → i ≠ j → d.getD j 0 < d.getD i 0) :
    getKNearest d 1 = [j] := by
  have hlen : 0 < (argsort d).length := by
    rw [length_argsort]
    exact Nat.lt_of_le_of_lt (Nat.zero_le j) hj
  obtain ⟨h, t, hcons⟩ :=
    List.exists_cons_of_ne_nil (List.ne_nil_of_length_pos hlen)
  have hjmem : j ∈ argsort d :=
    (argsort_perm_range d).mem_iff.mpr (List.mem_range.mpr hj)
  have hhmem : h ∈ argsort d := by
    rw [hcons]; exact List.mem_cons_self h t
  have hh : h < d.length :=
    List.mem_range.mp ((argsort_perm_range d).mem_iff.mp hhmem)
  have hsorted := argsort_sorted d
  rw [hcons] at hsorted
  have hall : ∀ b ∈ t, argKey d h b := (List.sorted_cons.mp hsorted).1
  have hhj : h = j := by
    by_contra hne
    have hstrict : d.getD j 0 < d.getD h 0 := hmin h hh hne
    have hjm : j ∈ h :: t := by rw [← hcons]; exact hjmem
    rcases List.mem_cons.mp hjm with hjh | hjt
    · exact hne hjh.symm
    · exact absurd (hall j hjt) (not_le_of_lt hstrict)
  rw [getKNearest, hcons, hhj]
  rfl

/-- C2: for a fitted model, `predict` with `k = 1` returns the target of
the training point strictly closest to the query (strict in squared
distance, equivalently in Euclidean distance).  In particular a query
coinciding with a training point at uniquely-zero distance receives
exactly that point's target. -/
theorem c2_predict_one_neighbor_is_closest (X : List (List ℚ))
    (y : List ℚ) (q : List ℚ) (j : ℕ) (hy : y.length = X.length)
    (hj : j < X.length)
    (hmin : ∀ i, i < X.length → i ≠ j →
      distSq q (X.getD j []) < distSq q (X.getD i [])) :
    (KNN.fit X y).predict [q] 1 = [y.getD j 0] := by
  have hd : ((KNN.fit X y).getDistances q).length = X.length := by
    rw [KNN.getDistances, List.length_map]; rfl
  have hmin' : ∀ i, i < ((KNN.fit X y).getDistances q).length → i ≠ j →
      ((KNN.fit X y).getDistances q).getD j 0 <
        ((KNN.fit X y).getDistances q).getD i 0 := by
    intro i hi hne
    rw [getDistances_getD X y q j hj, getDistances_getD X y q i (hd ▸ hi)]
    exact hmin i (hd ▸ hi) hne
  have hone := getKNearest_one ((KNN.fit X y).getDistances q) j
    (hd ▸ hj) hmin'
  rw [KNN.predict, List.map_cons, List.map_nil, hone,
    KNN.getPredictedValue, List.map_cons, List.map_nil, mean_singleton]
  rfl

/-- Witness for C2: on the example training set
`{([0,0],10), ([10,0],20), ([0,10],30)}` and query `[1,0]`, the nearest
point is `[0,0]` (squared distances `1 < 81 < 101`), so `predict` with
`k = 1` returns `[10]`. -/
theorem c2_witness :
    (KNN.fit exX exY).predict [[1, 0]] 1 = [10] := by
  have hmin : ∀ i, i < exX.length → i ≠ 0 →
      distSq [1, 0] (exX.getD 0 []) < distSq [1, 0] (exX.getD i []) := by
    intro i hi hne
    have hi3 : i < 3 := by simpa [exX] using hi
    interval_cases i
    · exact absurd rfl hne
    · norm_num [distSq, exX]
    · norm_num [distSq, exX]
  have h := c2_predict_one_neighbor_is_closest exX exY [1, 0] 0
    (by decide) (by decide) hmin
  rw [h]
  norm_num [exY]

/-- C9: for a fitted nonempty model, `predict` with `k > n_train` does
not fail: the slice `np.argsort(distances)[:k]` silently truncates to
all `n_train` indices, so the call behaves exactly as `k = n_train` and
each prediction is the mean of all training targets. -/
theorem c9_predict_truncates_large_k (X : List (List ℚ)) (y : List ℚ)
    (qs : List (List ℚ)) (k : ℕ) (hy : y.length = X.length)
    (h0 : 0 < X.length) (hk : X.length < k) :
    (KNN.fit X y).predict qs k = (KNN.fit X y).predict qs X.length ∧
    (KNN.fit X y).predict qs k = qs.map (fun _ => mean y) := by
  have h1 := predict_mean_of_le X y qs k hy (le_of_lt hk)
  have h2 := predict_mean_of_le X y qs X.length hy le_rfl
  exact ⟨h1.trans h2.symm, h1⟩

/-- Witness for C9: on the example model (`n_train = 3`), `predict` with
`k = 4` agrees with `predict` at `k = 3` and yields the mean of all
targets. -/
theorem c9_witness :
    (KNN.fit exX exY).predict [[1, 0]] 4 =
      (KNN.fit exX exY).predict [[1, 0]] exX.length ∧
    (KNN.fit exX exY).predict [[1, 0]] 4 =
      List.map (fun _ => mean exY) [[1, 0]] :=
  c9_predict_truncates_large_k exX exY [[1, 0]] 4 (by decide) (by decide)
    (by decide)

/-- Counterexample to C4 as stated: on the example model with
`n_train = 3`, calling `predict` with `k = 4 > n_train` does not fail
with `InvalidK` — it returns the prediction sequence `[20]` (the mean of
all three targets), because the slice `np.argsort(distances)[:4]`
silently truncates.  The source contains no validation of `k` and no
`InvalidK` error at all. -/
theorem c4_counterexample :
    (KNN.fit exX exY).predict [[1, 0]] 4 = [20] := by
  rw [predict_mean_of_le exX exY [[1, 0]] 4 (by decide) (by decide)]
  norm_num [mean, exY]

/-- C4 as amended: `predict` performs no validation of `k`.  For
`k > n_train` it still returns one prediction per query, each equal to
the mean of all training targets.  (For `k = 0` the selected index list
is empty and the source computes `np.mean` of an empty slice, which is
NaN with a runtime warning — still not an `InvalidK` failure.) -/
theorem c4_amended_no_invalid_k (X : List (List ℚ)) (y : List ℚ)
    (qs : List (List ℚ)) (k : ℕ) (hy : y.length = X.length)
    (hk : X.length < k) :
    ((KNN.fit X y).predict qs k).length = qs.length ∧
    ∀ p ∈ (KNN.fit X y).predict qs k, p = mean y := by
  constructor
  · rw [KNN.predict, List.length_map]
  · intro p hp
    rw [predict_mean_of_le X y qs k hy (le_of_lt hk)] at hp
    obtain ⟨q, _, hpq⟩ := List.mem_map.mp hp
    exact hpq.symm

/-- Witness for C4's amended statement: with `k = 4` on the 3-point
example model, `predict` returns exactly one prediction for the one
query. -/
theorem c4_witness :
    ((KNN.fit exX exY).predict [[1, 0]] 4).length = 1 :=
  (c4_amended_no_invalid_k exX exY [[1, 0]] 4 (by decide) (by decide)).1

/-- On a fitted state the looping `predictOpt` succeeds and agrees with
`predict`. -/
theorem predictOpt_some (s : KNN) (qs : List (List ℚ)) (k : ℕ) :
    KNN.predictOpt (some s) qs k = some (s.predict qs k) := by
  induction qs with
  | nil => rfl
  | cons q rest ih =>
    show (KNN.predictOpt (some s) rest k).map _ = _
    rw [ih]
    rfl

/-- Counterexample to C5 as stated: calling `predict` on an unfitted
instance with an empty query batch does not fail.  The source runs
`predictions = np.zeros(0)` and zero loop iterations — the missing
`X_train`/`y_train` attributes are never accessed — and returns the
empty predictions array, so the claim's "with any queries" is false at
the empty batch. -/
theorem c5_counterexample :
    KNN.predictOpt Option.none [] 3 = some [] :=
  rfl

/-- C5 as amended: before `fit`, `predict` with a nonempty query batch
fails at the first attribute lookup (`AttributeError`, the spec's
`NotFitted`) and produces no predictions; with an empty query batch it
returns the empty predictions array without touching the missing
attributes.  After `fit`, predictions are produced from the stored
state. -/
theorem c5_amended_predict_requires_fit (qs : List (List ℚ)) (k : ℕ)
    (hne : qs ≠ []) :
    KNN.predictOpt Option.none qs k = Option.none ∧
    ∀ X y, KNN.predictOpt (some (KNN.fit X y)) qs k =
      some ((KNN.fit X y).predict qs k) := by
  constructor
  · match qs, hne with
    | q :: rest, _ => rfl
  · intro X y
    exact predictOpt_some (KNN.fit X y) qs k

/-- Witness for C5's amended statement: with the one-query batch
`[[1,0]]`, the unfitted instance yields no predictions while the fitted
example model yields the `predict` output. -/
theorem c5_witness :
    KNN.predictOpt Option.none [[1, 0]] 1 = Option.none ∧
    KNN.predictOpt (some (KNN.fit exX exY)) [[1, 0]] 1 =
      some ((KNN.fit exX exY).predict [[1, 0]] 1) := by
  have h := c5_amended_predict_requires_fit [[1, 0]] 1
    (List.cons_ne_nil _ _)
  exact ⟨h.1, h.2 exX exY⟩

/-- Counterexample to C6 as stated: `fit` with a feature list of two
vectors of inconsistent dimensionality (`[0]` and `[1,2]`) and a target
list of different length (one element) does not fail with
`ShapeMismatch` — it succeeds and stores exactly those ill-shaped
arguments.  The source's `fit` is two attribute assignments with no
validation. -/
theorem c6_counterexample :
    KNN.fit [[0], [1, 2]] [5] = KNN.mk [[0], [1, 2]] [5] :=
  rfl

/-- C6 as amended: `fit` stores both sequences unchanged as the model's
training data and performs no distance computation — but it performs no
validation either, so it never fails with `ShapeMismatch`, even when the
lengths differ or the dimensionality is inconsistent. -/
theorem c6_fit_stores_unvalidated (X : List (List ℚ)) (y : List ℚ) :
    (KNN.fit X y).X_train = X ∧ (KNN.fit X y).y_train = y :=
  ⟨rfl, rfl⟩

/-- C7: `predict` is pure.  Running `predict` and then running it again
with the same inputs on the resulting state yields identical outputs,
and the stored training state after the calls is unchanged.  (In the
source, `predict` writes only to its local `predictions` array and never
assigns to `self`.) -/
theorem c7_predict_deterministic_pure (m : KNN) (qs : List (List ℚ))
    (k : ℕ) :
    (KNN.predictRun (KNN.predictRun m qs k).1 qs k).2 =
      (KNN.predictRun m qs k).2 ∧
    (KNN.predictRun (KNN.predictRun m qs k).1 qs k).1 = m :=
  ⟨rfl, rfl⟩

/-- Concatenating the singleton results of a function applied pointwise
recovers the map. -/
theorem join_map_singleton {α β : Type} (f : α → β) (l : List α) :
    (l.map (fun a => [f a])).flatten = l.map f := by
  induction l with
  | nil => rfl
  | cons a t ih => simp only [List.map_cons, List.flatten_cons, ih,
      List.singleton_append]

/-- C8: `predict` returns exactly one prediction per query, in input
order, and the batch result is the concatenation of the results of the
singleton calls: each query is processed independently inside the
loop. -/
theorem c8_predict_batch_is_pointwise (X : List (List ℚ)) (y : List ℚ)
    (qs : List (List ℚ)) (k : ℕ) :
    ((KNN.fit X y).predict qs k).length = qs.length ∧
    (KNN.fit X y).predict qs k =
      (qs.map (fun q => (KNN.fit X y).predict [q] k)).flatten := by
  constructor
  · rw [KNN.predict, List.length_map]
  · have hsingle : (fun q => (KNN.fit X y).predict [q] k) =
        fun q => [(KNN.fit X y).getPredictedValue
          (getKNearest ((KNN.fit X y).getDistances q) k)] := rfl
    rw [hsingle, join_map_singleton, KNN.predict]

/-- Lower bound for the mean of a nonempty list of bounded-below
values. -/
theorem le_mean_of_forall_le (l : List ℚ) (hne : l ≠ []) (lo : ℚ)
    (h : ∀ x ∈ l, lo ≤ x) : lo ≤ mean l := by
  have hl : 0 < (l.length : ℚ) := by
    exact_mod_cast List.length_pos.mpr hne
  rw [mean, le_div_iff₀ hl]
  calc lo * l.length = l.length • lo := by rw [nsmul_eq_mul, mul_comm]
    _ ≤ l.sum := List.card_nsmul_le_sum l lo h

/-- Upper bound for the mean of a nonempty list of bounded-above
values. -/
theorem mean_le_of_forall_le (l : List ℚ) (hne : l ≠ []) (hi : ℚ)
    (h : ∀ x ∈ l, x ≤ hi) : mean l ≤ hi := by
  have hl : 0 < (l.length : ℚ) := by
    exact_mod_cast List.length_pos.mpr hne
  rw [mean, div_le_iff₀ hl]
  calc l.sum ≤ l.length • hi := List.sum_le_card_nsmul l hi h
    _ = hi * l.length := by rw [nsmul_eq_mul, mul_comm]

/-- Every index selected by `_get_k_nearest` is a valid index into the
distance array (hence into the training arrays). -/
theorem getKNearest_mem_lt (d : List ℚ) (k i : ℕ)
    (hi : i ∈ getKNearest d k) : i < d.length := by
  have hmem : i ∈ argsort d := List.mem_of_mem_take hi
  exact List.mem_range.mp ((argsort_perm_range d).mem_iff.mp hmem)

/-- The number of selected neighbors is `min k n_train`. -/
theorem length_getKNearest (d : List ℚ) (k : ℕ) :
    (getKNearest d k).length = min k d.length := by
  rw [getKNearest, List.length_take, length_argsort]

/-- C10: for a fitted nonempty model and any `k` with
`1 ≤ k ≤ n_train`, every returned prediction lies between any lower
bound and any upper bound of the stored targets — in particular between
their minimum and maximum: each prediction is the mean of a nonempty
selection of the targets. -/
theorem c10_prediction_within_target_range (X : List (List ℚ))
    (y : List ℚ) (qs : List (List ℚ)) (k : ℕ) (lo hi : ℚ)
    (hy : y.length = X.length) (h0 : 0 < X.length) (hk1 : 1 ≤ k)
    (hk2 : k ≤ X.length) (hb : ∀ t ∈ y, lo ≤ t ∧ t ≤ hi) :
    ∀ p ∈ (KNN.fit X y).predict qs k, lo ≤ p ∧ p ≤ hi := by
  intro p hp
  rw [KNN.predict] at hp
  obtain ⟨q, _, hpq⟩ := List.mem_map.mp hp
  subst hpq
  have hd : ((KNN.fit X y).getDistances q).length = X.length := by
    rw [KNN.getDistances, List.length_map]; rfl
  have hselne :
      (getKNearest ((KNN.fit X y).getDistances q) k).map
        (fun i => ((KNN.fit X y).y_train).getD i 0) ≠ [] := by
    apply List.ne_nil_of_length_pos
    rw [List.length_map, length_getKNearest, hd]
    exact lt_min (by omega) h0
  have hmem : ∀ v ∈ (getKNearest ((KNN.fit X y).getDistances q) k).map
      (fun i => ((KNN.fit X y).y_train).getD i 0), v ∈ y := by
    intro v hv
    obtain ⟨i, hisel, hvi⟩ := List.mem_map.mp hv
    have hilt : i < ((KNN.fit X y).getDistances q).length :=
      getKNearest_mem_lt _ k i hisel
    have hiy : i < y.length := by omega
    rw [← hvi]
    show y.getD i 0 ∈ y
    rw [List.getD_eq_getElem _ _ hiy]
    exact List.getElem_mem _
  rw [KNN.getPredictedValue]
  constructor
  · exact le_mean_of_forall_le _ hselne lo
      (fun x hx => (hb x (hmem x hx)).1)
  · exact mean_le_of_forall_le _ hselne hi
      (fun x hx => (hb x (hmem x hx)).2)

/-- Witness for C10: on the example model with `k = 3`, the prediction
for query `[1,0]` is the mean of all targets, and it lies between the
minimum target 10 and the maximum target 30. -/
theorem c10_witness : (10 : ℚ) ≤ mean exY ∧ mean exY ≤ 30 := by
  have hmem : mean exY ∈ (KNN.fit exX exY).predict [[1, 0]] 3 := by
    rw [predict_mean_of_le exX exY [[1, 0]] 3 (by decide) (by decide)]
    simp
  exact c10_prediction_within_target_range exX exY [[1, 0]] 3 10 30
    (by decide) (by decide) (by decide) (by decide)
    (by intro t ht; fin_cases ht <;> norm_num) (mean exY) hmem

end KNNWorkshop
